import Mathlib

/-!
Verification of the `uml-mail-fastapi` repository: a single PM2-style
`ecosystem.config.js` declarative configuration file, together with the
process-supervisor semantics that the specification describes for it.

Part one embeds the configuration document itself (the only code under
`src/`).  Part two models, from the specification, the supervisor components
(Health & Restart Controller, Log Multiplexer, Lifecycle Signal Handler)
that consume such a configuration, since no supervisor implementation is
part of the repository.
-/

/-- Values occurring in the configuration document: strings, numbers,
booleans, nested objects (ordered key/value lists) and arrays. -/
inductive ConfigValue where
  | str : String → ConfigValue
  | num : Int → ConfigValue
  | bool : Bool → ConfigValue
  | obj : List (String × ConfigValue) → ConfigValue
  | arr : List ConfigValue → ConfigValue

/-- First-match association lookup over an object's field list. -/
def lookupKey (fields : List (String × ConfigValue)) (k : String) : Option ConfigValue :=
  match fields with
  | [] => none
  | (k2, v) :: rest => if k = k2 then some v else lookupKey rest k

/-- The `env` object of the single app entry, from `src/ecosystem.config.js`
lines 9-12. -/
def envFields : List (String × ConfigValue) :=
  [("NODE_ENV", ConfigValue.str "production"),
   ("PORT", ConfigValue.num 3001)]

/-- The single app entry of `module.exports.apps` in
`src/ecosystem.config.js`, lines 3-24, field by field. -/
def appFields : List (String × ConfigValue) :=
  [("name", ConfigValue.str "uml-mail-fastapi"),
   ("script", ConfigValue.str "main.py"),
   ("interpreter", ConfigValue.str "python"),
   ("instances", ConfigValue.num 1),
   ("exec_mode", ConfigValue.str "fork"),
   ("env", ConfigValue.obj envFields),
   ("error_file", ConfigValue.str "./logs/error.log"),
   ("out_file", ConfigValue.str "./logs/out.log"),
   ("log_file", ConfigValue.str "./logs/combined.log"),
   ("time_format", ConfigValue.str "YYYY-MM-DD HH:mm:ss Z"),
   ("merge_logs", ConfigValue.bool true),
   ("autorestart", ConfigValue.bool true),
   ("max_memory_restart", ConfigValue.str "500M"),
   ("max_restarts", ConfigValue.num 10),
   ("min_uptime", ConfigValue.str "10s"),
   ("listen_timeout", ConfigValue.num 10000),
   ("kill_timeout", ConfigValue.num 5000)]

/-- The `apps` array of the exported configuration object. -/
def appsArray : List ConfigValue := [ConfigValue.obj appFields]

/-- The whole exported configuration object of `src/ecosystem.config.js`. -/
def ecosystemConfig : ConfigValue :=
  ConfigValue.obj [("apps", ConfigValue.arr appsArray)]

/-- Extract the `apps` array from a configuration document. -/
def appsOf (v : ConfigValue) : Option (List ConfigValue) :=
  match v with
  | ConfigValue.obj fs =>
      match lookupKey fs "apps" with
      | some (ConfigValue.arr l) => some l
      | _ => none
  | _ => none

/-- Check that a looked-up field of the app entry exists and satisfies a
shape predicate. -/
def fieldSat (k : String) (p : ConfigValue → Bool) : Bool :=
  match lookupKey appFields k with
  | some v => p v
  | none => false

/-- Shape check from the spec: `exec_mode` is a member of the set
containing fork and cluster. -/
def execModeOK (v : ConfigValue) : Bool :=
  match v with
  | ConfigValue.str s => s == "fork" || s == "cluster"
  | _ => false

/-- Shape check: the value is a boolean. -/
def isBoolVal (v : ConfigValue) : Bool :=
  match v with
  | ConfigValue.bool _ => true
  | _ => false

/-- Shape check: the value is an integer. -/
def isIntVal (v : ConfigValue) : Bool :=
  match v with
  | ConfigValue.num _ => true
  | _ => false

/-- Shape check: the value is a nonnegative integer number of
milliseconds. -/
def isMsVal (v : ConfigValue) : Bool :=
  match v with
  | ConfigValue.num n => decide (0 ≤ n)
  | _ => false

/-- Shape check: the value is a strictly positive integer. -/
def isPosIntVal (v : ConfigValue) : Bool :=
  match v with
  | ConfigValue.num n => decide (0 < n)
  | _ => false

/-- Shape check from the spec: a size string such as "500M" is one or more
digits followed by a unit letter K, M or G. -/
def isSizeString (s : String) : Bool :=
  match s.data.getLast? with
  | some u =>
      (u == 'K' || u == 'M' || u == 'G')
        && !s.data.dropLast.isEmpty
        && s.data.dropLast.all (fun c => c.isDigit)
  | none => false

/-- Shape check from the spec: a duration string such as "10s" is one or
more digits followed by a unit suffix ms, s, m or h. -/
def isDurationString (s : String) : Bool :=
  [['m', 's'], ['s'], ['m'], ['h']].any (fun suf =>
    let cs := s.data
    decide (suf.length < cs.length)
      && cs.drop (cs.length - suf.length) == suf
      && (cs.take (cs.length - suf.length)).all (fun c => c.isDigit))

/-- Shape check: the value is a size string. -/
def isSizeVal (v : ConfigValue) : Bool :=
  match v with
  | ConfigValue.str s => isSizeString s
  | _ => false

/-- Shape check: the value is a duration string. -/
def isDurationVal (v : ConfigValue) : Bool :=
  match v with
  | ConfigValue.str s => isDurationString s
  | _ => false

/-- The text of `src/ecosystem.config.js`, line by line; the file has no
trailing newline after the final line. -/
def ecosystemFileLines : List String :=
  ["module.exports = \x7b",
   "  apps: [",
   "    \x7b",
   "      name: \x27uml-mail-fastapi\x27,",
   "      script: \x27main.py\x27,",
   "      interpreter: \x27python\x27,",
   "      instances: 1,",
   "      exec_mode: \x27fork\x27,",
   "      env: \x7b",
   "        NODE_ENV: \x27production\x27,",
   "        PORT: 3001",
   "      \x7d,",
   "      error_file: \x27./logs/error.log\x27,",
   "      out_file: \x27./logs/out.log\x27,",
   "      log_file: \x27./logs/combined.log\x27,",
   "      time_format: \x27YYYY-MM-DD HH:mm:ss Z\x27,",
   "      merge_logs: true,",
   "      autorestart: true,",
   "      max_memory_restart: \x27500M\x27,",
   "      max_restarts: 10,",
   "      min_uptime: \x2710s\x27,",
   "      listen_timeout: 10000,",
   "      kill_timeout: 5000",
   "    \x7d",
   "  ]",
   "\x7d;"]

/-- The raw file text, newline-joined (no trailing newline). -/
def ecosystemFileText : String := String.intercalate "\n" ecosystemFileLines

/-- Number of lines of a text whose final line is not newline-terminated:
one more than the number of newline characters. -/
def lineCount (s : String) : Nat :=
  (s.data.filter (fun c => c = '\n')).length + 1

/-- Path is inside the ./logs/ directory (relative path). -/
def inLogsDir (s : String) : Bool :=
  s.data.take 7 == "./logs/".data

/-- C1: the single app entry provides all seventeen load-time fields with
the shapes the spec states: `exec_mode` in the fork/cluster set,
`merge_logs` and `autorestart` booleans, `max_memory_restart` a size
string, `max_restarts` an integer, `min_uptime` a duration string, and
`listen_timeout` and `kill_timeout` millisecond values. -/
theorem claim_C1 :
    (["name", "script", "interpreter", "instances", "exec_mode", "env",
      "error_file", "out_file", "log_file", "time_format", "merge_logs",
      "autorestart", "max_memory_restart", "max_restarts", "min_uptime",
      "listen_timeout", "kill_timeout"].all
        (fun k => (lookupKey appFields k).isSome)) = true ∧
    fieldSat "exec_mode" execModeOK = true ∧
    fieldSat "merge_logs" isBoolVal = true ∧
    fieldSat "autorestart" isBoolVal = true ∧
    fieldSat "max_memory_restart" isSizeVal = true ∧
    fieldSat "max_restarts" isIntVal = true ∧
    fieldSat "min_uptime" isDurationVal = true ∧
    fieldSat "listen_timeout" isMsVal = true ∧
    fieldSat "kill_timeout" isMsVal = true := by
  decide

/-- C7: the source configuration file is exactly 26 lines long. -/
theorem claim_C7 :
    ecosystemFileLines.length = 26 ∧ lineCount ecosystemFileText = 26 := by
  constructor
  · rfl
  · decide

/-- C8: the exported configuration's apps array has exactly one
descriptor, named uml-mail-fastapi, requesting single-process operation:
instances = 1 and exec_mode = fork. -/
theorem claim_C8 :
    appsOf ecosystemConfig = some appsArray ∧
    appsArray.length = 1 ∧
    appsArray = [ConfigValue.obj appFields] ∧
    lookupKey appFields "name" = some (ConfigValue.str "uml-mail-fastapi") ∧
    lookupKey appFields "instances" = some (ConfigValue.num 1) ∧
    lookupKey appFields "exec_mode" = some (ConfigValue.str "fork") := by
  exact ⟨rfl, rfl, rfl, rfl, rfl, rfl⟩

/-- C9: the three log targets are pairwise distinct relative paths inside
the ./logs/ directory, so the error, output and combined streams never
alias the same file. -/
theorem claim_C9 :
    lookupKey appFields "error_file" = some (ConfigValue.str "./logs/error.log") ∧
    lookupKey appFields "out_file" = some (ConfigValue.str "./logs/out.log") ∧
    lookupKey appFields "log_file" = some (ConfigValue.str "./logs/combined.log") ∧
    (inLogsDir "./logs/error.log" && inLogsDir "./logs/out.log"
      && inLogsDir "./logs/combined.log") = true ∧
    "./logs/error.log" ≠ "./logs/out.log" ∧
    "./logs/error.log" ≠ "./logs/combined.log" ∧
    "./logs/out.log" ≠ "./logs/combined.log" := by
  refine ⟨rfl, rfl, rfl, ?_, ?_, ?_, ?_⟩ <;> decide

/-- C10: the descriptor mixes representations: the env mapping is
heterogeneous (NODE_ENV a string, PORT a number), durations and sizes are
unit-suffixed strings while listen_timeout and kill_timeout are raw
integers, and every numeric field in the file is a positive integer. -/
theorem claim_C10 :
    lookupKey envFields "NODE_ENV" = some (ConfigValue.str "production") ∧
    lookupKey envFields "PORT" = some (ConfigValue.num 3001) ∧
    fieldSat "min_uptime" isDurationVal = true ∧
    fieldSat "max_memory_restart" isSizeVal = true ∧
    fieldSat "listen_timeout" isIntVal = true ∧
    fieldSat "kill_timeout" isIntVal = true ∧
    fieldSat "instances" isPosIntVal = true ∧
    isPosIntVal (ConfigValue.num 3001) = true ∧
    fieldSat "max_restarts" isPosIntVal = true ∧
    fieldSat "listen_timeout" isPosIntVal = true ∧
    fieldSat "kill_timeout" isPosIntVal = true := by
  exact ⟨rfl, rfl, rfl, rfl, rfl, rfl, rfl, rfl, rfl, rfl, rfl⟩

/-- Modelled from the spec: restart-policy fields of an AppDescriptor
consumed by the Health & Restart Controller (spec section 4.3); the
supervisor itself is not part of the repository, only its configuration.
Durations are in milliseconds. -/
structure RestartPolicy where
  autorestart : Bool
  max_restarts : Nat
  min_uptime : Nat
deriving Repr, DecidableEq

/-- Modelled from the spec: the states of the Health & Restart Controller
state machine (spec section 4.3).  `Stopping` records whether the stop is
part of a deliberate restart (the memory-ceiling rule) rather than an
operator stop; `Crashed` records the uptime of the run that just ended;
`Stopped` records whether the terminal state reports failure. -/
inductive ProcState where
  | Starting : ProcState
  | Listening : ProcState
  | Running : ProcState
  | Stopping : Bool → ProcState
  | Crashed : Nat → ProcState
  | Stopped : Bool → ProcState
deriving Repr, DecidableEq

/-- Modelled from the spec: the controller-owned runtime data of a
ProcessInstance: current state, crash-loop restart counter, total number
of launches so far, and total number of crash-triggered restarts. -/
structure SupState where
  proc : ProcState
  restartCount : Nat
  launches : Nat
  crashRestarts : Nat
deriving Repr, DecidableEq

/-- Modelled from the spec: the events the controller reacts to —
readiness signal, liveness confirmation, unexpected exit carrying the
uptime of the run, the crash-loop evaluation, an explicit stop request,
completion of a stop, and a memory-ceiling breach. -/
inductive SupEvent where
  | readiness : SupEvent
  | liveness : SupEvent
  | exited : Nat → SupEvent
  | evalRestart : SupEvent
  | stopRequest : SupEvent
  | stopComplete : SupEvent
  | memBreach : SupEvent
deriving Repr, DecidableEq

/-- Modelled from the spec: the transition function of the Health &
Restart Controller (spec section 4.3).  `Crashed→Starting` is attempted
when autorestart holds and the (possibly reset) counter is below
max_restarts; the counter increments only when the prior uptime was below
min_uptime, and a run of at least min_uptime resets it to zero before the
evaluation.  A memory breach takes `Running→Stopping(deliberate)` and then
`Stopping(deliberate)→Starting` without touching the crash-loop counter. -/
def step (p : RestartPolicy) (s : SupState) : SupEvent → SupState
  | SupEvent.readiness =>
      match s.proc with
      | ProcState.Starting => ⟨ProcState.Listening, s.restartCount, s.launches, s.crashRestarts⟩
      | _ => s
  | SupEvent.liveness =>
      match s.proc with
      | ProcState.Listening => ⟨ProcState.Running, s.restartCount, s.launches, s.crashRestarts⟩
      | _ => s
  | SupEvent.exited u =>
      match s.proc with
      | ProcState.Running => ⟨ProcState.Crashed u, s.restartCount, s.launches, s.crashRestarts⟩
      | _ => s
  | SupEvent.evalRestart =>
      match s.proc with
      | ProcState.Crashed u =>
          let c := if p.min_uptime ≤ u then 0 else s.restartCount
          if p.autorestart = true ∧ c < p.max_restarts then
            ⟨ProcState.Starting, if u < p.min_uptime then c + 1 else c,
              s.launches + 1, s.crashRestarts + 1⟩
          else
            ⟨ProcState.Stopped true, c, s.launches, s.crashRestarts⟩
      | _ => s
  | SupEvent.stopRequest =>
      match s.proc with
      | ProcState.Running => ⟨ProcState.Stopping false, s.restartCount, s.launches, s.crashRestarts⟩
      | _ => s
  | SupEvent.stopComplete =>
      match s.proc with
      | ProcState.Stopping true => ⟨ProcState.Starting, s.restartCount, s.launches + 1, s.crashRestarts⟩
      | ProcState.Stopping false => ⟨ProcState.Stopped false, s.restartCount, s.launches, s.crashRestarts⟩
      | _ => s
  | SupEvent.memBreach =>
      match s.proc with
      | ProcState.Running => ⟨ProcState.Stopping true, s.restartCount, s.launches, s.crashRestarts⟩
      | _ => s

/-- One crash-and-recover cycle: the running child exits after `u`
milliseconds, the controller evaluates the restart policy, and — when a
restart was granted — the relaunched child passes readiness and liveness
back to Running.  On a terminal state every step is a no-op. -/
def crashCycle (p : RestartPolicy) (s : SupState) (u : Nat) : SupState :=
  step p (step p (step p (step p s (SupEvent.exited u)) SupEvent.evalRestart)
    SupEvent.readiness) SupEvent.liveness

/-- Run a sequence of crashes (given by their uptimes) through the
controller. -/
def runCrashes (p : RestartPolicy) (s : SupState) (us : List Nat) : SupState :=
  us.foldl (crashCycle p) s

/-- State right after the first launch of the child. -/
def initialLaunch : SupState := ⟨ProcState.Starting, 0, 1, 0⟩

/-- State once the first launch has reached Running. -/
def firstRunning (p : RestartPolicy) : SupState :=
  step p (step p initialLaunch SupEvent.readiness) SupEvent.liveness

theorem firstRunning_eq (p : RestartPolicy) :
    firstRunning p = ⟨ProcState.Running, 0, 1, 0⟩ := rfl

theorem crashCycle_stopped (p : RestartPolicy) (b : Bool) (c l r u : Nat) :
    crashCycle p ⟨ProcState.Stopped b, c, l, r⟩ u = ⟨ProcState.Stopped b, c, l, r⟩ := rfl

theorem runCrashes_stopped (p : RestartPolicy) (b : Bool) (c l r : Nat)
    (us : List Nat) :
    runCrashes p ⟨ProcState.Stopped b, c, l, r⟩ us = ⟨ProcState.Stopped b, c, l, r⟩ := by
  induction us with
  | nil => rfl
  | cons u us ih =>
      simpa [runCrashes, crashCycle_stopped] using ih

theorem crashCycle_running_grant (p : RestartPolicy) (c l r : Nat)
    (hmin : 0 < p.min_uptime) (ha : p.autorestart = true)
    (hc : c < p.max_restarts) :
    crashCycle p ⟨ProcState.Running, c, l, r⟩ 0 = ⟨ProcState.Running, c + 1, l + 1, r + 1⟩ := by
  have h0 : ¬ p.min_uptime ≤ 0 := by omega
  simp [crashCycle, step, h0, ha, hc, hmin]

theorem crashCycle_running_exhausted (p : RestartPolicy) (l r : Nat)
    (hmin : 0 < p.min_uptime) :
    crashCycle p ⟨ProcState.Running, p.max_restarts, l, r⟩ 0
      = ⟨ProcState.Stopped true, p.max_restarts, l, r⟩ := by
  have h0 : ¬ p.min_uptime ≤ 0 := by omega
  simp [crashCycle, step, h0]

theorem runCrashes_replicate_grant (p : RestartPolicy)
    (hmin : 0 < p.min_uptime) (ha : p.autorestart = true) :
    ∀ j c l r, c + j ≤ p.max_restarts →
      runCrashes p ⟨ProcState.Running, c, l, r⟩ (List.replicate j 0)
        = ⟨ProcState.Running, c + j, l + j, r + j⟩ := by
  intro j
  induction j with
  | zero => intro c l r _; simp [runCrashes]
  | succ j ih =>
      intro c l r h
      have hc : c < p.max_restarts := by omega
      have hstep := crashCycle_running_grant p c l r hmin ha hc
      have : runCrashes p ⟨ProcState.Running, c, l, r⟩ (List.replicate (j + 1) 0)
          = runCrashes p ⟨ProcState.Running, c + 1, l + 1, r + 1⟩ (List.replicate j 0) := by
        simp [runCrashes, List.replicate_succ, hstep]
      rw [this, ih (c + 1) (l + 1) (r + 1) (by omega)]
      congr 1 <;> omega

theorem runCrashes_append (p : RestartPolicy) (s : SupState) (a b : List Nat) :
    runCrashes p s (a ++ b) = runCrashes p (runCrashes p s a) b := by
  simp [runCrashes, List.foldl_append]

/-- C2: with autorestart and max_restarts = N, a child that exits
immediately on every launch is restarted exactly N times (N+1 total
launches) and the controller then reaches the terminal Stopped/failure
state; an (N+1)-th restart is never attempted, however many further
crash cycles are offered. -/
theorem claim_C2 (p : RestartPolicy) (hmin : 0 < p.min_uptime)
    (ha : p.autorestart = true) (k : Nat) (hk : p.max_restarts + 1 ≤ k) :
    runCrashes p (firstRunning p) (List.replicate k 0)
      = ⟨ProcState.Stopped true, p.max_restarts, p.max_restarts + 1, p.max_restarts⟩ := by
  obtain ⟨m, rfl⟩ : ∃ m, k = p.max_restarts + 1 + m :=
    ⟨k - (p.max_restarts + 1), by omega⟩
  have hsplit : List.replicate (p.max_restarts + 1 + m) (0 : Nat)
      = (List.replicate p.max_restarts 0 ++ [0]) ++ List.replicate m (0 : Nat) := by
    rw [List.replicate_add, List.replicate_succ']
  rw [hsplit, runCrashes_append, runCrashes_append, firstRunning_eq,
    runCrashes_replicate_grant p hmin ha p.max_restarts 0 1 0 (by omega),
    show (0 : Nat) + p.max_restarts = p.max_restarts by omega,
    show (1 : Nat) + p.max_restarts = p.max_restarts + 1 by omega,
    show runCrashes p ⟨ProcState.Running, p.max_restarts, p.max_restarts + 1, p.max_restarts⟩ [0]
        = crashCycle p ⟨ProcState.Running, p.max_restarts, p.max_restarts + 1, p.max_restarts⟩ 0
      from rfl,
    crashCycle_running_exhausted p (p.max_restarts + 1) p.max_restarts hmin,
    runCrashes_stopped]

/-- Concrete instance of C2: the spec scenario with max_restarts = 3 and
min_uptime 10s — 3 restart attempts, 4 launches, terminal failure. -/
theorem claim_C2_witness :
    0 < (RestartPolicy.mk true 3 10000).min_uptime ∧
    (RestartPolicy.mk true 3 10000).autorestart = true ∧
    (RestartPolicy.mk true 3 10000).max_restarts + 1 ≤ 5 ∧
    runCrashes (RestartPolicy.mk true 3 10000)
        (firstRunning (RestartPolicy.mk true 3 10000)) (List.replicate 5 0)
      = ⟨ProcState.Stopped true, 3, 4, 3⟩ :=
  ⟨by decide, by decide, by decide,
    claim_C2 (RestartPolicy.mk true 3 10000) (by decide) (by decide) 5 (by decide)⟩

/-- C3: on a Crashed→Starting transition the restart counter increments
exactly when the prior uptime was below min_uptime, and a run of at least
min_uptime leaves the counter at zero. -/
theorem claim_C3 (p : RestartPolicy) (s : SupState) (u : Nat)
    (h : s.proc = ProcState.Crashed u)
    (hstart : (step p s SupEvent.evalRestart).proc = ProcState.Starting) :
    (step p s SupEvent.evalRestart).restartCount
      = if u < p.min_uptime then s.restartCount + 1 else 0 := by
  by_cases hau : p.autorestart = true
      ∧ (if p.min_uptime ≤ u then 0 else s.restartCount) < p.max_restarts
  · obtain ⟨ha2, hc⟩ := hau
    by_cases hu : u < p.min_uptime
    · rw [if_neg (Nat.not_le.mpr hu)] at hc
      simp [step, h, ha2, hc, hu, Nat.not_le.mpr hu]
    · rw [if_pos (Nat.not_lt.mp hu)] at hc
      simp [step, h, ha2, hc, hu, Nat.not_lt.mp hu]
  · exfalso
    simp [step, h, hau] at hstart

/-- Concrete instance of C3: a crash at uptime 0 against min_uptime 10000
takes the counter from 1 to 2. -/
theorem claim_C3_witness :
    (SupState.mk (ProcState.Crashed 0) 1 2 1).proc = ProcState.Crashed 0 ∧
    (step (RestartPolicy.mk true 10 10000) (SupState.mk (ProcState.Crashed 0) 1 2 1)
      SupEvent.evalRestart).proc = ProcState.Starting ∧
    (step (RestartPolicy.mk true 10 10000) (SupState.mk (ProcState.Crashed 0) 1 2 1)
        SupEvent.evalRestart).restartCount
      = if 0 < (10000 : Nat) then 1 + 1 else 0 :=
  ⟨rfl, rfl, claim_C3 (RestartPolicy.mk true 10 10000)
    (SupState.mk (ProcState.Crashed 0) 1 2 1) 0 rfl rfl⟩

/-- C4: a memory-ceiling breach takes the path
Running→Stopping(deliberate)→Starting and leaves the crash-loop restart
counter (and the crash-restart tally) unchanged at both steps. -/
theorem claim_C4 (p : RestartPolicy) (s : SupState)
    (h : s.proc = ProcState.Running) :
    (step p s SupEvent.memBreach).proc = ProcState.Stopping true ∧
    (step p (step p s SupEvent.memBreach) SupEvent.stopComplete).proc
      = ProcState.Starting ∧
    (step p s SupEvent.memBreach).restartCount = s.restartCount ∧
    (step p (step p s SupEvent.memBreach) SupEvent.stopComplete).restartCount
      = s.restartCount ∧
    (step p s SupEvent.memBreach).crashRestarts = s.crashRestarts ∧
    (step p (step p s SupEvent.memBreach) SupEvent.stopComplete).crashRestarts
      = s.crashRestarts := by
  refine ⟨?_, ?_, ?_, ?_, ?_, ?_⟩ <;> simp [step, h]

/-- Concrete instance of C4 with counter 2: the deliberate memory restart
keeps it at 2. -/
theorem claim_C4_witness :
    (SupState.mk ProcState.Running 2 3 2).proc = ProcState.Running ∧
    ((step (RestartPolicy.mk true 10 10000) (SupState.mk ProcState.Running 2 3 2)
        SupEvent.memBreach).proc = ProcState.Stopping true ∧
      (step (RestartPolicy.mk true 10 10000)
        (step (RestartPolicy.mk true 10 10000) (SupState.mk ProcState.Running 2 3 2)
          SupEvent.memBreach) SupEvent.stopComplete).proc = ProcState.Starting ∧
      (step (RestartPolicy.mk true 10 10000) (SupState.mk ProcState.Running 2 3 2)
        SupEvent.memBreach).restartCount = (SupState.mk ProcState.Running 2 3 2).restartCount ∧
      (step (RestartPolicy.mk true 10 10000)
        (step (RestartPolicy.mk true 10 10000) (SupState.mk ProcState.Running 2 3 2)
          SupEvent.memBreach) SupEvent.stopComplete).restartCount
        = (SupState.mk ProcState.Running 2 3 2).restartCount ∧
      (step (RestartPolicy.mk true 10 10000) (SupState.mk ProcState.Running 2 3 2)
        SupEvent.memBreach).crashRestarts = (SupState.mk ProcState.Running 2 3 2).crashRestarts ∧
      (step (RestartPolicy.mk true 10 10000)
        (step (RestartPolicy.mk true 10 10000) (SupState.mk ProcState.Running 2 3 2)
          SupEvent.memBreach) SupEvent.stopComplete).crashRestarts
        = (SupState.mk ProcState.Running 2 3 2).crashRestarts) :=
  ⟨rfl, claim_C4 (RestartPolicy.mk true 10 10000)
    (SupState.mk ProcState.Running 2 3 2) rfl⟩

/-- Modelled from the spec: the two child output streams read by the Log
Multiplexer (spec section 4.4). -/
inductive LogStream where
  | stdout : LogStream
  | stderr : LogStream
deriving Repr, DecidableEq

/-- Count the occurrences of one stream tag in an arrival schedule. -/
def countStream (t : LogStream) : List LogStream → Nat
  | [] => 0
  | s :: rest => (if s = t then 1 else 0) + countStream t rest

/-- Modelled from the spec: the merged-log multiplexer.  The schedule is
the arrival order of lines across the two streams; each schedule entry
consumes the next pending line of its stream and appends it, tagged, to
the combined file.  A schedule entry whose stream has no pending line is
skipped. -/
def mux : List LogStream → List String → List String → List (LogStream × String)
  | [], _, _ => []
  | LogStream.stdout :: sched, o :: os, es => (LogStream.stdout, o) :: mux sched os es
  | LogStream.stdout :: sched, [], es => mux sched [] es
  | LogStream.stderr :: sched, os, e :: es => (LogStream.stderr, e) :: mux sched os es
  | LogStream.stderr :: sched, os, [] => mux sched os []

/-- Lines of the combined file that came from stdout, in file order. -/
def outLines (l : List (LogStream × String)) : List String :=
  l.filterMap (fun p =>
    match p.1 with
    | LogStream.stdout => some p.2
    | LogStream.stderr => none)

/-- Lines of the combined file that came from stderr, in file order. -/
def errLines (l : List (LogStream × String)) : List String :=
  l.filterMap (fun p =>
    match p.1 with
    | LogStream.stdout => none
    | LogStream.stderr => some p.2)

theorem mux_outLines :
    ∀ (sched : List LogStream) (os es : List String),
      countStream LogStream.stdout sched = os.length →
      outLines (mux sched os es) = os := by
  intro sched
  induction sched with
  | nil =>
      intro os es h
      have : os = [] := by
        cases os with
        | nil => rfl
        | cons o os => simp [countStream] at h
      subst this
      rfl
  | cons s sched ih =>
      intro os es h
      cases s with
      | stdout =>
          cases os with
          | nil => simp [countStream] at h
          | cons o os =>
              simp [countStream] at h
              simp only [mux, outLines, List.filterMap_cons]
              exact congrArg (List.cons o) (ih os es (by omega))
      | stderr =>
          simp only [countStream, if_neg (by simp : ¬ LogStream.stderr = LogStream.stdout),
            Nat.zero_add] at h
          cases es with
          | nil => simpa [mux] using ih os [] h
          | cons e es =>
              simpa [mux, outLines, List.filterMap_cons] using ih os es h

theorem mux_errLines :
    ∀ (sched : List LogStream) (os es : List String),
      countStream LogStream.stderr sched = es.length →
      errLines (mux sched os es) = es := by
  intro sched
  induction sched with
  | nil =>
      intro os es h
      have : es = [] := by
        cases es with
        | nil => rfl
        | cons e es => simp [countStream] at h
      subst this
      rfl
  | cons s sched ih =>
      intro os es h
      cases s with
      | stderr =>
          cases es with
          | nil => simp [countStream] at h
          | cons e es =>
              simp [countStream] at h
              simp only [mux, errLines, List.filterMap_cons]
              exact congrArg (List.cons e) (ih os es (by omega))
      | stdout =>
          simp only [countStream, if_neg (by simp : ¬ LogStream.stdout = LogStream.stderr),
            Nat.zero_add] at h
          cases os with
          | nil => simpa [mux] using ih [] es h
          | cons o os =>
              simpa [mux, errLines, List.filterMap_cons] using ih os es h

theorem map_snd_perm (l : List (LogStream × String)) :
    (l.map Prod.snd).Perm (outLines l ++ errLines l) := by
  induction l with
  | nil => simp [outLines, errLines]
  | cons p l ih =>
      obtain ⟨t, s⟩ := p
      cases t with
      | stdout =>
          simpa [outLines, errLines, List.filterMap_cons] using ih.cons s
      | stderr =>
          simp only [outLines, errLines, List.filterMap_cons, List.map_cons]
          exact (ih.cons s).trans List.perm_middle.symm

/-- C5: with merge_logs enabled, the combined file built from any valid
arrival schedule keeps each stream's lines in their original order, and
its contents are exactly the multiset union of the two streams' lines —
count-preserving, nothing dropped, nothing duplicated. -/
theorem claim_C5 (sched : List LogStream) (os es : List String)
    (ho : countStream LogStream.stdout sched = os.length)
    (he : countStream LogStream.stderr sched = es.length) :
    outLines (mux sched os es) = os ∧
    errLines (mux sched os es) = es ∧
    ((mux sched os es).map Prod.snd).Perm (os ++ es) ∧
    ((mux sched os es).map Prod.snd).length = os.length + es.length := by
  have h1 := mux_outLines sched os es ho
  have h2 := mux_errLines sched os es he
  have h3 : ((mux sched os es).map Prod.snd).Perm (os ++ es) := by
    have := map_snd_perm (mux sched os es)
    rwa [h1, h2] at this
  exact ⟨h1, h2, h3, by simpa using h3.length_eq⟩

/-- Concrete instance of C5: two stdout lines and one stderr line under
the schedule stdout, stderr, stdout. -/
theorem claim_C5_witness :
    countStream LogStream.stdout [LogStream.stdout, LogStream.stderr, LogStream.stdout]
      = (["a", "b"] : List String).length ∧
    countStream LogStream.stderr [LogStream.stdout, LogStream.stderr, LogStream.stdout]
      = (["x"] : List String).length ∧
    (outLines (mux [LogStream.stdout, LogStream.stderr, LogStream.stdout] ["a", "b"] ["x"])
        = ["a", "b"] ∧
      errLines (mux [LogStream.stdout, LogStream.stderr, LogStream.stdout] ["a", "b"] ["x"])
        = ["x"] ∧
      ((mux [LogStream.stdout, LogStream.stderr, LogStream.stdout] ["a", "b"] ["x"]).map
        Prod.snd).Perm (["a", "b"] ++ ["x"]) ∧
      ((mux [LogStream.stdout, LogStream.stderr, LogStream.stdout] ["a", "b"] ["x"]).map
        Prod.snd).length = (["a", "b"] : List String).length + (["x"] : List String).length) :=
  ⟨rfl, rfl,
    claim_C5 [LogStream.stdout, LogStream.stderr, LogStream.stdout] ["a", "b"] ["x"] rfl rfl⟩

/-- Modelled from the spec: the two one-shot deadlines of an
AppDescriptor, in milliseconds (spec sections 4.3 and 4.5). -/
structure Timeouts where
  listen_timeout : Nat
  kill_timeout : Nat
deriving Repr, DecidableEq

/-- Modelled from the spec: the outcome of one stop request handled by
the Lifecycle Signal Handler. -/
structure ShutdownResult where
  gracefulSignalSent : Bool
  termTime : Nat
  forcedKill : Bool
  finalState : ProcState
  supervisorFailure : Bool
deriving Repr, DecidableEq

/-- Modelled from the spec: the Lifecycle Signal Handler's stop path
(spec section 4.5).  The graceful signal is sent at time 0; if the child
exits by `kill_timeout` the stop completes then, otherwise termination is
forced at the deadline.  Either way the process reaches terminal Stopped
and a shutdown timeout is never a supervisor failure. -/
def shutdown (t : Timeouts) (childExitsAt : Option Nat) : ShutdownResult :=
  match childExitsAt with
  | some e =>
      if e ≤ t.kill_timeout then ⟨true, e, false, ProcState.Stopped false, false⟩
      else ⟨true, t.kill_timeout, true, ProcState.Stopped false, false⟩
  | none => ⟨true, t.kill_timeout, true, ProcState.Stopped false, false⟩

/-- Modelled from the spec: the startup phase governed by listen_timeout
(spec section 4.3) — the moment the Starting state is left, whether by a
readiness signal or by the deadline elapsing. -/
def startupListen (t : Timeouts) (readyAt : Option Nat) : Nat :=
  match readyAt with
  | some r => min r t.listen_timeout
  | none => t.listen_timeout

/-- C6: every stop request sends the graceful signal, waits at most
kill_timeout, forces termination exactly at the deadline when the child
does not exit, always reaches terminal Stopped, never surfaces a
supervisor failure; and shutdown depends only on kill_timeout while the
startup deadline depends only on listen_timeout (independent one-shot
deadlines). -/
theorem claim_C6 (t : Timeouts) (exitAt : Option Nat) :
    (shutdown t exitAt).gracefulSignalSent = true ∧
    (shutdown t exitAt).termTime ≤ t.kill_timeout ∧
    (shutdown t exitAt).finalState = ProcState.Stopped false ∧
    (shutdown t exitAt).supervisorFailure = false ∧
    (∀ e, exitAt = some e → t.kill_timeout < e →
      (shutdown t exitAt).forcedKill = true ∧
        (shutdown t exitAt).termTime = t.kill_timeout) ∧
    ((shutdown t none).forcedKill = true ∧
      (shutdown t none).termTime = t.kill_timeout) ∧
    (∀ lt2, shutdown ⟨lt2, t.kill_timeout⟩ exitAt = shutdown t exitAt) ∧
    (∀ kt2 readyAt, startupListen ⟨t.listen_timeout, kt2⟩ readyAt = startupListen t readyAt) := by
  cases exitAt with
  | none =>
      refine ⟨rfl, Nat.le_refl _, rfl, rfl, ?_, ⟨rfl, rfl⟩, ?_, ?_⟩
      · intro e he
        cases he
      · intro lt2
        rfl
      · intro kt2 readyAt
        rfl
  | some e =>
      by_cases hle : e ≤ t.kill_timeout
      · refine ⟨?_, ?_, ?_, ?_, ?_, ⟨rfl, rfl⟩, ?_, ?_⟩
        · simp [shutdown, hle]
        · simp [shutdown, hle]
        · simp [shutdown, hle]
        · simp [shutdown, hle]
        · intro e2 he2 hlt
          obtain rfl : e = e2 := by injection he2
          omega
        · intro lt2
          rfl
        · intro kt2 readyAt
          rfl
      · refine ⟨?_, ?_, ?_, ?_, ?_, ⟨rfl, rfl⟩, ?_, ?_⟩
        · simp [shutdown, hle]
        · simp [shutdown, hle]
        · simp [shutdown, hle]
        · simp [shutdown, hle]
        · intro e2 he2 hlt
          simp [shutdown, hle]
        · intro lt2
          rfl
        · intro kt2 readyAt
          rfl

/-- Concrete instance of C6: kill_timeout 5000 and a child that ignores
the graceful signal — forced termination at 5000, terminal Stopped, no
supervisor failure. -/
theorem claim_C6_witness :
    (shutdown (Timeouts.mk 10000 5000) none).gracefulSignalSent = true ∧
    (shutdown (Timeouts.mk 10000 5000) none).termTime ≤ (Timeouts.mk 10000 5000).kill_timeout ∧
    (shutdown (Timeouts.mk 10000 5000) none).finalState = ProcState.Stopped false ∧
    (shutdown (Timeouts.mk 10000 5000) none).supervisorFailure = false ∧
    (shutdown (Timeouts.mk 10000 5000) none).forcedKill = true :=
  ⟨(claim_C6 (Timeouts.mk 10000 5000) none).1,
    (claim_C6 (Timeouts.mk 10000 5000) none).2.1,
    (claim_C6 (Timeouts.mk 10000 5000) none).2.2.1,
    (claim_C6 (Timeouts.mk 10000 5000) none).2.2.2.1,
    (claim_C6 (Timeouts.mk 10000 5000) none).2.2.2.2.2.1.1⟩
